import Mathlib

/-
Verification of the brick-game renderer simulation (src/renderer.js).

Shallow embedding conventions:
- JS numbers holding fractional values (speed, coordinates, timestamps,
  stripeOffset) are modelled as rationals (ℚ); JS numbers that are always
  integer-valued (score, lane indices, spawnTimer, highScore) are modelled
  as ℤ.
- The module-level mutable globals of renderer.js (running, score, speed,
  enemies, spawnTimer, stripeOffset, player fields, highScore,
  lastMoveTime) are gathered into one GameState record; each JS function
  mutating them becomes a GameState → GameState function.
- Layout globals recomputed on resize (roadMargin, laneWidth, canvas H,
  enemy default sizes) are passed as a Layout parameter.
- Math.random() draws used by spawnEnemy are passed in as a SpawnRand
  parameter.
- Calls to the external persistence collaborator
  (window.electronAPI.setHighScore) are recorded in the persistCalls field.
-/

namespace BrickGame

/-- Enemy car record, as pushed by spawnEnemy: { lane, x, y, w, h }
(the color field carries no simulation content and is omitted). -/
structure Enemy where
  lane : ℤ
  x : ℚ
  y : ℚ
  w : ℚ
  h : ℚ
  deriving Repr, DecidableEq

/-- Layout globals of renderer.js that resizeCanvas recomputes:
roadMargin, laneWidth, the canvas logical height H, and the default
enemy size enemyDefaultW/enemyDefaultH used at spawn time. -/
structure Layout where
  roadMargin : ℚ
  laneWidth : ℚ
  H : ℚ
  enemyDefaultW : ℚ
  enemyDefaultH : ℚ
  deriving Repr, DecidableEq

/-- The mutable simulation globals of renderer.js in one record. -/
structure GameState where
  running : Bool
  score : ℤ
  speed : ℚ
  enemies : List Enemy
  spawnTimer : ℤ
  stripeOffset : ℚ
  playerLane : ℤ
  playerX : ℚ
  playerY : ℚ
  playerW : ℚ
  playerH : ℚ
  highScore : ℤ
  persistCalls : List ℤ
  lastMoveTime : ℚ
  deriving Repr, DecidableEq

/-- Random draws consumed by spawnEnemy:
lane = Math.floor(Math.random() * lanes) and the vertical offset
Math.random() * 200. -/
structure SpawnRand where
  lane : ℤ
  off : ℚ
  deriving Repr, DecidableEq

/-- const lanes = 3 -/
def lanes : ℤ := 3

/-- const spawnInterval = 90 -/
def spawnInterval : ℤ := 90

/-- const minMoveInterval = 150 -/
def minMoveInterval : ℚ := 150

/-- Lane-center x coordinate: roadMargin + lane * laneWidth + laneWidth / 2,
as computed in update, resizeCanvas and spawnEnemy. -/
def laneCenter (lay : Layout) (lane : ℤ) : ℚ :=
  lay.roadMargin + lane * lay.laneWidth + lay.laneWidth / 2

/-- function resetGame(): score = 0; speed = 3; enemies = []; spawnTimer = 0;
stripeOffset = 0; player.lane = 1; running = true.  (The audio calls and the
gameLoop kick-off touch no simulation state.) -/
def resetGame (s : GameState) : GameState :=
  { s with
    score := 0
    speed := 3
    enemies := []
    spawnTimer := 0
    stripeOffset := 0
    playerLane := 1
    running := true }

/-- function endGame(): running = false; if (score > highScore)
{ highScore = score; electronAPI.setHighScore(highScore) }.  The audio calls
touch no simulation state; the setHighScore request is recorded in
persistCalls. -/
def endGame (s : GameState) : GameState :=
  let s1 := { s with running := false }
  if s1.score > s1.highScore then
    { s1 with highScore := s1.score, persistCalls := s1.persistCalls ++ [s1.score] }
  else s1

/-- function spawnEnemy(): pushes { lane, x, y, w, h } with
lane a random integer in [0, lanes), w/h the default enemy size,
x the lane center, y = -h - random()*200. -/
def spawnEnemy (lay : Layout) (r : SpawnRand) (es : List Enemy) : List Enemy :=
  es ++ [{ lane := r.lane
           x := laneCenter lay r.lane
           y := -lay.enemyDefaultH - r.off
           w := lay.enemyDefaultW
           h := lay.enemyDefaultH }]

/-- One enemy step inside the update loop body:
enemies[i].y += speed + 1; enemies[i].x = laneCenter. -/
def moveEnemy (lay : Layout) (speed : ℚ) (e : Enemy) : Enemy :=
  { e with y := e.y + speed + 1, x := laneCenter lay e.lane }

/-- The enemy update loop of update(): iterating the array in reverse,
moving each enemy and splicing out any with y > H + 100, is the same as
mapping the move over the list and filtering out the off-screen ones
(reverse iteration exists only to make in-place splice safe). -/
def updateEnemies (lay : Layout) (speed : ℚ) (es : List Enemy) : List Enemy :=
  (es.map (moveEnemy lay speed)).filter (fun e => !decide (e.y > lay.H + 100))

/-- The AABB test in the collision loop of update():
px < ex + e.w && px + player.w > ex && py < ey + e.h && py + player.h > ey
with px/py/ex/ey the top-left corners obtained by subtracting half the
width/height from the center coordinates. -/
def playerCollides (s : GameState) (e : Enemy) : Bool :=
  let px := s.playerX - s.playerW / 2
  let py := s.playerY - s.playerH / 2
  let ex := e.x - e.w / 2
  let ey := e.y - e.h / 2
  decide (px < ex + e.w) && decide (px + s.playerW > ex) &&
    decide (py < ey + e.h) && decide (py + s.playerH > ey)

/-- The collision loop of update(): walk the enemy list in order; on the
first colliding enemy call endGame and break (later enemies are not
examined); if none collides the state is untouched. -/
def checkCollisions (es : List Enemy) (s : GameState) : GameState :=
  match es with
  | [] => s
  | e :: rest => if playerCollides s e then endGame s else checkCollisions rest s

/-- function update(): early return when !running; then, in source order:
score += Math.floor(speed / 1.5);
if (score % 1000 === 0) speed += 0.2;
player.x = lane center;
spawnTimer++; if (spawnTimer >= spawnInterval) { spawnTimer = 0; spawnEnemy() };
the enemy move/prune loop (on the possibly grown pool, with the new speed);
the collision loop (over the moved pool, with the updated player/score);
stripeOffset += speed. -/
def update (lay : Layout) (r : SpawnRand) (s : GameState) : GameState :=
  if !s.running then s
  else
    let score1 := s.score + ⌊s.speed / 1.5⌋
    let speed1 := if score1 % 1000 = 0 then s.speed + 0.2 else s.speed
    let px := laneCenter lay s.playerLane
    let st1 := s.spawnTimer + 1
    let st2 := if st1 ≥ spawnInterval then 0 else st1
    let es0 := if st1 ≥ spawnInterval then spawnEnemy lay r s.enemies else s.enemies
    let es1 := updateEnemies lay speed1 es0
    let s1 : GameState :=
      { s with
        score := score1
        speed := speed1
        playerX := px
        spawnTimer := st2
        enemies := es1 }
    let s2 := checkCollisions es1 s1
    { s2 with stripeOffset := s2.stripeOffset + speed1 }

/-- A sequence of ticks: each entry carries that tick's layout globals and
random draws. -/
def runTicks (ticks : List (Layout × SpawnRand)) (s : GameState) : GameState :=
  ticks.foldl (fun st p => update p.1 p.2 st) s

/-- The two lane-change input events the keydown handler reacts to. -/
inductive MoveKey where
  | left
  | right
  deriving Repr, DecidableEq

/-- The keydown handler: now = performance.now();
if (now - lastMoveTime < minMoveInterval) return;
ArrowLeft/a: player.lane = Math.max(0, player.lane - 1); lastMoveTime = now;
ArrowRight/d: player.lane = Math.min(lanes - 1, player.lane + 1);
lastMoveTime = now. -/
def keydown (now : ℚ) (k : MoveKey) (s : GameState) : GameState :=
  if now - s.lastMoveTime < minMoveInterval then s
  else
    match k with
    | MoveKey.left =>
        { s with playerLane := max 0 (s.playerLane - 1), lastMoveTime := now }
    | MoveKey.right =>
        { s with playerLane := min (lanes - 1) (s.playerLane + 1), lastMoveTime := now }

/-- A sequence of keydown events, each with its performance.now() timestamp. -/
def runKeys (evs : List (ℚ × MoveKey)) (s : GameState) : GameState :=
  evs.foldl (fun st p => keydown p.1 p.2 st) s

/-- A concrete game state for witnesses: the state right after the first
resetGame on a 380x480 canvas. -/
def sampleState : GameState :=
  { running := true
    score := 0
    speed := 3
    enemies := []
    spawnTimer := 0
    stripeOffset := 0
    playerLane := 1
    playerX := 190
    playerY := 394
    playerW := 40
    playerH := 70
    highScore := 0
    persistCalls := []
    lastMoveTime := 0 }

/-- A concrete layout for witnesses. -/
def sampleLayout : Layout :=
  { roadMargin := 40, laneWidth := 100, H := 480, enemyDefaultW := 40, enemyDefaultH := 70 }

/-- Concrete random draws for witnesses. -/
def sampleRand : SpawnRand := { lane := 0, off := 0 }

/-- A concrete enemy spawned at y = -70 for claim C4. -/
def sampleEnemy : Enemy := { lane := 0, x := 90, y := -70, w := 40, h := 70 }

/-- A concrete ended state for witnesses. -/
def sampleEnded : GameState := { sampleState with running := false, score := 500 }

/-- A concrete enemy overlapping the sample player, for the C2 witness. -/
def overlappingEnemy : Enemy := { lane := 1, x := 190, y := 394, w := 40, h := 70 }

end BrickGame

namespace BrickGame

/-- endGame changes neither score field branch-wise. -/
lemma endGame_score (s : GameState) : (endGame s).score = s.score := by
  rw [endGame]
  dsimp only
  split <;> rfl

/-- endGame never touches speed. -/
lemma endGame_speed (s : GameState) : (endGame s).speed = s.speed := by
  rw [endGame]
  dsimp only
  split <;> rfl

/-- The collision loop never changes score (endGame does not either). -/
lemma checkCollisions_score (es : List Enemy) (s : GameState) :
    (checkCollisions es s).score = s.score := by
  induction es with
  | nil => rfl
  | cons e rest ih =>
      unfold checkCollisions
      split
      · exact endGame_score s
      · exact ih

/-- The collision loop never changes speed. -/
lemma checkCollisions_speed (es : List Enemy) (s : GameState) :
    (checkCollisions es s).speed = s.speed := by
  induction es with
  | nil => rfl
  | cons e rest ih =>
      unfold checkCollisions
      split
      · exact endGame_speed s
      · exact ih

/-- The early return of update: with running false nothing happens. -/
lemma update_of_not_running (lay : Layout) (r : SpawnRand) (s : GameState)
    (h : s.running = false) : update lay r s = s := by
  simp [update, h]

/-- While running, the tick adds exactly floor(speed / 1.5) to score. -/
lemma update_score_of_running (lay : Layout) (r : SpawnRand) (s : GameState)
    (h : s.running = true) :
    (update lay r s).score = s.score + ⌊s.speed / 1.5⌋ := by
  simp only [update, h, Bool.not_true, Bool.false_eq_true, if_false]
  rw [checkCollisions_score]

/-- While running, the tick's final speed is the modulus-conditional bump. -/
lemma update_speed_of_running (lay : Layout) (r : SpawnRand) (s : GameState)
    (h : s.running = true) :
    (update lay r s).speed =
      if (s.score + ⌊s.speed / 1.5⌋) % 1000 = 0 then s.speed + 0.2 else s.speed := by
  simp only [update, h, Bool.not_true, Bool.false_eq_true, if_false]
  rw [checkCollisions_speed]

/-- Any tick leaves speed alone or bumps it by exactly 0.2. -/
lemma update_speed_cases (lay : Layout) (r : SpawnRand) (s : GameState) :
    (update lay r s).speed = s.speed ∨ (update lay r s).speed = s.speed + 0.2 := by
  cases h : s.running with
  | false => rw [update_of_not_running lay r s h]; exact Or.inl rfl
  | true =>
      rw [update_speed_of_running lay r s h]
      split
      · exact Or.inr rfl
      · exact Or.inl rfl

/-- Speed never decreases across one tick. -/
lemma update_speed_mono (lay : Layout) (r : SpawnRand) (s : GameState) :
    s.speed ≤ (update lay r s).speed := by
  rcases update_speed_cases lay r s with h | h
  · rw [h]
  · rw [h]; linarith

/-- With nonnegative speed, score never decreases across one tick. -/
lemma update_score_mono (lay : Layout) (r : SpawnRand) (s : GameState)
    (h : 0 ≤ s.speed) : s.score ≤ (update lay r s).score := by
  cases hr : s.running with
  | false => rw [update_of_not_running lay r s hr]
  | true =>
      rw [update_score_of_running lay r s hr]
      have hfl : (0 : ℤ) ≤ ⌊s.speed / 1.5⌋ := by
        rw [Int.le_floor]
        push_cast
        positivity
  
      linarith

lemma runTicks_nil (s : GameState) : runTicks [] s = s := rfl

lemma runTicks_cons (p : Layout × SpawnRand) (ps : List (Layout × SpawnRand))
    (s : GameState) : runTicks (p :: ps) s = runTicks ps (update p.1 p.2 s) := rfl

/-- With nonnegative starting speed, score never decreases across any tick
sequence. -/
lemma runTicks_score_mono (ticks : List (Layout × SpawnRand)) (s : GameState)
    (h : 0 ≤ s.speed) : s.score ≤ (runTicks ticks s).score := by
  induction ticks generalizing s with
  | nil => rw [runTicks_nil]
  | cons p ps ih =>
      rw [runTicks_cons]
      have h1 : 0 ≤ (update p.1 p.2 s).speed :=
        le_trans h (update_speed_mono p.1 p.2 s)
      exact le_trans (update_score_mono p.1 p.2 s h) (ih _ h1)

/-- Speed never decreases across any tick sequence. -/
lemma runTicks_speed_mono (ticks : List (Layout × SpawnRand)) (s : GameState) :
    s.speed ≤ (runTicks ticks s).speed := by
  induction ticks generalizing s with
  | nil => rw [runTicks_nil]
  | cons p ps ih =>
      rw [runTicks_cons]
      exact le_trans (update_speed_mono p.1 p.2 s) (ih _)

/-- One keydown event keeps the lane inside [0, lanes - 1]. -/
lemma keydown_lane_bounds (now : ℚ) (k : MoveKey) (s : GameState)
    (h0 : 0 ≤ s.playerLane) (h1 : s.playerLane ≤ lanes - 1) :
    0 ≤ (keydown now k s).playerLane ∧ (keydown now k s).playerLane ≤ lanes - 1 := by
  rw [keydown.eq_def]
  split
  · exact ⟨h0, h1⟩
  · cases k <;> dsimp only <;> simp only [lanes] at h1 ⊢ <;> omega

/-- A whole keydown event sequence keeps the lane inside [0, lanes - 1]. -/
lemma runKeys_lane_bounds (evs : List (ℚ × MoveKey)) (s : GameState)
    (h0 : 0 ≤ s.playerLane) (h1 : s.playerLane ≤ lanes - 1) :
    0 ≤ (runKeys evs s).playerLane ∧ (runKeys evs s).playerLane ≤ lanes - 1 := by
  induction evs generalizing s with
  | nil => exact ⟨h0, h1⟩
  | cons p ps ih =>
      have hb := keydown_lane_bounds p.1 p.2 s h0 h1
      exact ih (keydown p.1 p.2 s) hb.1 hb.2

/-- The collision test unfolded to the four AABB inequalities. -/
lemma playerCollides_iff_aabb (s : GameState) (f : Enemy) :
    playerCollides s f = true ↔
      (s.playerX - s.playerW / 2 < f.x - f.w / 2 + f.w ∧
        s.playerX - s.playerW / 2 + s.playerW > f.x - f.w / 2 ∧
        s.playerY - s.playerH / 2 < f.y - f.h / 2 + f.h ∧
        s.playerY - s.playerH / 2 + s.playerH > f.y - f.h / 2) := by
  simp [playerCollides, and_assoc]

/-- With no colliding enemy, the collision loop is a no-op. -/
lemma checkCollisions_no_hit (s : GameState) (t : List Enemy)
    (h : ∀ a ∈ t, playerCollides s a = false) : checkCollisions t s = s := by
  induction t with
  | nil => rfl
  | cons a rest ih =>
      rw [checkCollisions, if_neg]
      · exact ih fun b hb => h b (List.mem_cons_of_mem a hb)
      · rw [h a (List.mem_cons_self a rest)]; exact Bool.false_ne_true

/-- The first colliding enemy of the pool makes the loop end the game. -/
lemma checkCollisions_first_hit (s : GameState) (pre post : List Enemy) (e : Enemy)
    (hpre : ∀ a ∈ pre, playerCollides s a = false)
    (he : playerCollides s e = true) :
    checkCollisions (pre ++ e :: post) s = endGame s := by
  induction pre with
  | nil => rw [List.nil_append, checkCollisions, if_pos he]
  | cons a pr ih =>
      rw [List.cons_append, checkCollisions, if_neg]
      · exact ih fun b hb => hpre b (List.mem_cons_of_mem a hb)
      · rw [hpre a (List.mem_cons_self a pr)]; exact Bool.false_ne_true

lemma updateEnemies_nil (lay : Layout) (sp : ℚ) : updateEnemies lay sp [] = [] := rfl

/-- One pool-update tick on a single enemy: move down by speed + 1, snap x to
the lane center, drop the enemy exactly when y exceeds H + 100. -/
lemma updateEnemies_single (lay : Layout) (sp : ℚ) (a : Enemy) :
    updateEnemies lay sp [a] =
      if a.y + sp + 1 > lay.H + 100 then []
      else [{ a with y := a.y + sp + 1, x := laneCenter lay a.lane }] := by
  by_cases h : a.y + sp + 1 > lay.H + 100
  · rw [if_pos h]
    simp [updateEnemies, moveEnemy, List.filter_cons, h]
  · rw [if_neg h]
    simp [updateEnemies, moveEnemy, List.filter_cons, h]

/-- State of a single-enemy pool spawned at y = -70 after n pool-update
ticks at a fixed speed: either it has been dropped, exactly when
n * (speed + 1) got past H + 170, or it is still the sole pool entry with
y = -70 + n * (speed + 1). -/
lemma singlePool_characterization (lay : Layout) (sp : ℚ) (e : Enemy)
    (hy : e.y = -70) (hs : 0 ≤ sp) (hH : 0 ≤ lay.H) (n : ℕ) :
    ((fun es => updateEnemies lay sp es)^[n] [e] = [] ∧
        ¬((n : ℚ) * (sp + 1) ≤ lay.H + 170)) ∨
    (∃ x : ℚ,
        (fun es => updateEnemies lay sp es)^[n] [e] =
          [{ lane := e.lane, x := x, y := -70 + n * (sp + 1), w := e.w, h := e.h }] ∧
        (n : ℚ) * (sp + 1) ≤ lay.H + 170) := by
  induction n with
  | zero =>
      refine Or.inr ⟨e.x, ?_, by simpa using by linarith⟩
      simp only [Function.iterate_zero, id_eq, Nat.cast_zero, zero_mul, add_zero]
      rw [← hy]
  | succ n ih =>
      rw [Function.iterate_succ_apply']
      rcases ih with ⟨hnil, hcond⟩ | ⟨x, hlist, hcond⟩
      · refine Or.inl ⟨by rw [hnil]; rfl, ?_⟩
        intro habs
        apply hcond
        have hstep : (n : ℚ) * (sp + 1) ≤ (n + 1 : ℚ) * (sp + 1) := by nlinarith
        push_cast at habs ⊢
        linarith
      · rw [hlist, updateEnemies_single]
        dsimp only
        by_cases hk : -70 + (n : ℚ) * (sp + 1) + sp + 1 > lay.H + 100
        · refine Or.inl ⟨by rw [if_pos hk], ?_⟩
          push_cast
          intro habs
          nlinarith
        · rw [if_neg hk]
          refine Or.inr ⟨laneCenter lay e.lane, ?_, ?_⟩
          · congr 1
            push_cast
            ring_nf
          · push_cast
            push_cast at hk
            nlinarith

end BrickGame

namespace BrickGame

/-- C1: for every tick executed while running is true, update first adds
floor(speed / 1.5) to score, and then the tick's final speed equals
speed + 0.2 exactly when the new score satisfies score % 1000 == 0 and
equals the old speed otherwise — an exact-modulus check, so a multiple of
1000 skipped over by the integer score increment triggers no speed
increase, and speed is changed by no other amount and at no other point
in the tick. -/
theorem score_then_speed_per_tick (lay : Layout) (r : SpawnRand) (s : GameState)
    (h : s.running = true) :
    (update lay r s).score = s.score + ⌊s.speed / 1.5⌋ ∧
    (update lay r s).speed =
      (if (s.score + ⌊s.speed / 1.5⌋) % 1000 = 0 then s.speed + 0.2 else s.speed) :=
  ⟨update_score_of_running lay r s h, update_speed_of_running lay r s h⟩

/-- C1 witness: the theorem applied to the concrete post-reset state. -/
theorem score_then_speed_per_tick_w :
    sampleState.running = true ∧
    ((update sampleLayout sampleRand sampleState).score =
        sampleState.score + ⌊sampleState.speed / 1.5⌋ ∧
      (update sampleLayout sampleRand sampleState).speed =
        (if (sampleState.score + ⌊sampleState.speed / 1.5⌋) % 1000 = 0
          then sampleState.speed + 0.2 else sampleState.speed)) :=
  ⟨rfl, score_then_speed_per_tick sampleLayout sampleRand sampleState rfl⟩

/-- C2: the collision check tests the player box against each obstacle box
with the AABB condition px < ex+ew, px+pw > ex, py < ey+eh, py+ph > ey,
each corner being center minus half size; on the first obstacle in
iteration order that overlaps, end-of-game is triggered, and the enemies
after it do not influence the result of the tick's collision pass. -/
theorem collision_aabb_first_hit (s : GameState) (pre post : List Enemy) (e : Enemy)
    (hpre : ∀ a ∈ pre, playerCollides s a = false)
    (he : playerCollides s e = true) :
    (∀ f : Enemy,
        playerCollides s f = true ↔
          (s.playerX - s.playerW / 2 < f.x - f.w / 2 + f.w ∧
            s.playerX - s.playerW / 2 + s.playerW > f.x - f.w / 2 ∧
            s.playerY - s.playerH / 2 < f.y - f.h / 2 + f.h ∧
            s.playerY - s.playerH / 2 + s.playerH > f.y - f.h / 2)) ∧
    checkCollisions (pre ++ e :: post) s = endGame s ∧
    checkCollisions (pre ++ e :: post) s = checkCollisions (pre ++ [e]) s ∧
    (∀ t : List Enemy, (∀ a ∈ t, playerCollides s a = false) →
        checkCollisions t s = s) := by
  refine ⟨fun f => playerCollides_iff_aabb s f, checkCollisions_first_hit s pre post e hpre he,
    ?_, fun t ht => checkCollisions_no_hit s t ht⟩
  rw [checkCollisions_first_hit s pre post e hpre he,
    checkCollisions_first_hit s pre [] e hpre he]

/-- C2 witness: the theorem applied to the sample state with one
overlapping enemy followed by a distant one. -/
theorem collision_aabb_first_hit_w :
    ((∀ a ∈ ([] : List Enemy), playerCollides sampleState a = false) ∧
      playerCollides sampleState overlappingEnemy = true) ∧
    ((∀ f : Enemy,
        playerCollides sampleState f = true ↔
          (sampleState.playerX - sampleState.playerW / 2 < f.x - f.w / 2 + f.w ∧
            sampleState.playerX - sampleState.playerW / 2 + sampleState.playerW > f.x - f.w / 2 ∧
            sampleState.playerY - sampleState.playerH / 2 < f.y - f.h / 2 + f.h ∧
            sampleState.playerY - sampleState.playerH / 2 + sampleState.playerH > f.y - f.h / 2)) ∧
      checkCollisions ([] ++ overlappingEnemy :: [sampleEnemy]) sampleState = endGame sampleState ∧
      checkCollisions ([] ++ overlappingEnemy :: [sampleEnemy]) sampleState =
        checkCollisions ([] ++ [overlappingEnemy]) sampleState ∧
      (∀ t : List Enemy, (∀ a ∈ t, playerCollides sampleState a = false) →
          checkCollisions t sampleState = sampleState)) :=
  ⟨⟨fun a ha => absurd ha (List.not_mem_nil a),
      by norm_num [playerCollides, sampleState, overlappingEnemy]⟩,
    collision_aabb_first_hit sampleState [] [sampleEnemy] overlappingEnemy
      (fun a ha => absurd ha (List.not_mem_nil a))
      (by norm_num [playerCollides, sampleState, overlappingEnemy])⟩

/-- C3: from every prior simulation state, resetGame yields score 0,
speed 3, empty obstacle pool, spawnTimer 0, stripeOffset 0, player lane 1
and running true, and calling it twice in immediate succession yields
exactly the same state as calling it once. -/
theorem resetGame_initial_state_and_idempotent (s : GameState) :
    (resetGame s).score = 0 ∧ (resetGame s).speed = 3 ∧ (resetGame s).enemies = [] ∧
    (resetGame s).spawnTimer = 0 ∧ (resetGame s).stripeOffset = 0 ∧
    (resetGame s).playerLane = 1 ∧ (resetGame s).running = true ∧
    resetGame (resetGame s) = resetGame s :=
  ⟨rfl, rfl, rfl, rfl, rfl, rfl, rfl, rfl⟩

/-- C4 amended: the pool-update rule moves each obstacle down by
speed + 1 per tick and removes it exactly when its y exceeds H + 100;
consequently an obstacle spawned at y = -70 is still in the pool after n
ticks at a fixed speed exactly when n * (speed + 1) ≤ H + 170 — it is
removed on the first tick n with n * (speed + 1) > H + 170, which depends
on the screen height H, not after ceil((70 + 100) / (speed + 1)) ticks. -/
theorem obstacle_removed_when_past_screen (lay : Layout) (sp : ℚ) (e : Enemy) (n : ℕ)
    (hy : e.y = -70) (hs : 0 ≤ sp) (hH : 0 ≤ lay.H) :
    (∀ a : Enemy,
        updateEnemies lay sp [a] =
          if a.y + sp + 1 > lay.H + 100 then []
          else [{ a with y := a.y + sp + 1, x := laneCenter lay a.lane }]) ∧
    ((fun es => updateEnemies lay sp es)^[n] [e] ≠ [] ↔
      (n : ℚ) * (sp + 1) ≤ lay.H + 170) := by
  refine ⟨fun a => updateEnemies_single lay sp a, ?_⟩
  rcases singlePool_characterization lay sp e hy hs hH n with ⟨hnil, hcond⟩ | ⟨x, hlist, hcond⟩
  · constructor
    · intro h; exact absurd hnil h
    · intro h; exact absurd h hcond
  · constructor
    · intro _; exact hcond
    · intro _; rw [hlist]; exact List.cons_ne_nil _ _

/-- C4 counterexample: on a 480-high screen with speed 3, the obstacle
spawned at y = -70 is still in the pool after
ceil((70 + 100) / (speed + 1)) = 43 pool-update ticks, so the claimed
removal-tick count is wrong (the obstacle is only removed once
n * (speed + 1) exceeds 480 + 170, at tick 163). -/
theorem obstacle_not_removed_after_naive_count :
    (fun es => updateEnemies sampleLayout 3 es)^[43] [sampleEnemy] ≠ [] := by
  rcases singlePool_characterization sampleLayout 3 sampleEnemy rfl (by norm_num)
      (by norm_num [sampleLayout]) 43 with ⟨_, hcond⟩ | ⟨x, hlist, _⟩
  · exfalso
    apply hcond
    norm_num [sampleLayout]
  · rw [hlist]
    exact List.cons_ne_nil _ _

/-- C4 witness: the amended theorem applied at the concrete layout,
speed 3 and tick 163, the first tick with n * (speed + 1) > H + 170. -/
theorem obstacle_removed_when_past_screen_w :
    (sampleEnemy.y = -70 ∧ (0 : ℚ) ≤ 3 ∧ (0 : ℚ) ≤ sampleLayout.H) ∧
    ((∀ a : Enemy,
        updateEnemies sampleLayout 3 [a] =
          if a.y + 3 + 1 > sampleLayout.H + 100 then []
          else [{ a with y := a.y + 3 + 1, x := laneCenter sampleLayout a.lane }]) ∧
      ((fun es => updateEnemies sampleLayout 3 es)^[163] [sampleEnemy] ≠ [] ↔
        ((163 : ℕ) : ℚ) * (3 + 1) ≤ sampleLayout.H + 170)) :=
  ⟨⟨rfl, by norm_num, by norm_num [sampleLayout]⟩,
    obstacle_removed_when_past_screen sampleLayout 3 sampleEnemy 163 rfl (by norm_num)
      (by norm_num [sampleLayout])⟩

/-- C5: endGame always sets running to false; it updates the stored high
score to the current score and records a persistence request exactly when
the current score strictly exceeds the stored high score, and otherwise
leaves the high score and the persistence request list unchanged. -/
theorem endGame_highscore_persistence (s : GameState) :
    (endGame s).running = false ∧
    (s.highScore < s.score →
      (endGame s).highScore = s.score ∧
        (endGame s).persistCalls = s.persistCalls ++ [s.score]) ∧
    (s.score ≤ s.highScore →
      (endGame s).highScore = s.highScore ∧
        (endGame s).persistCalls = s.persistCalls) := by
  rw [endGame]
  dsimp only
  by_cases h : s.score > s.highScore
  · rw [if_pos h]
    exact ⟨rfl, fun _ => ⟨rfl, rfl⟩, fun hle => absurd h (not_lt.mpr hle)⟩
  · rw [if_neg h]
    exact ⟨rfl, fun hlt => absurd hlt h, fun _ => ⟨rfl, rfl⟩⟩

/-- C5 witness: the theorem applied to the sample state. -/
theorem endGame_highscore_persistence_w :
    (endGame sampleState).running = false ∧
    (sampleState.highScore < sampleState.score →
      (endGame sampleState).highScore = sampleState.score ∧
        (endGame sampleState).persistCalls = sampleState.persistCalls ++ [sampleState.score]) ∧
    (sampleState.score ≤ sampleState.highScore →
      (endGame sampleState).highScore = sampleState.highScore ∧
        (endGame sampleState).persistCalls = sampleState.persistCalls) :=
  endGame_highscore_persistence sampleState

/-- C6: starting from a lane inside [0, lanes - 1], every keydown event
and every sequence of keydown events keeps the lane inside
[0, lanes - 1]; a move left at lane 0 and a move right at lane lanes - 1
leave the lane unchanged. -/
theorem lane_clamped (now : ℚ) (k : MoveKey) (evs : List (ℚ × MoveKey)) (s : GameState)
    (h0 : 0 ≤ s.playerLane) (h1 : s.playerLane ≤ lanes - 1) :
    (0 ≤ (keydown now k s).playerLane ∧ (keydown now k s).playerLane ≤ lanes - 1) ∧
    (0 ≤ (runKeys evs s).playerLane ∧ (runKeys evs s).playerLane ≤ lanes - 1) ∧
    (s.playerLane = 0 → (keydown now MoveKey.left s).playerLane = 0) ∧
    (s.playerLane = lanes - 1 → (keydown now MoveKey.right s).playerLane = lanes - 1) := by
  refine ⟨keydown_lane_bounds now k s h0 h1, runKeys_lane_bounds evs s h0 h1, ?_, ?_⟩
  · intro hz
    simp only [keydown]
    split
    · exact hz
    · dsimp only; rw [hz]; omega
  · intro hm
    simp only [keydown]
    split
    · exact hm
    · dsimp only; rw [hm]; simp [lanes]

/-- C6 witness: the theorem applied to the sample state and a two-event
move-right sequence. -/
theorem lane_clamped_w :
    ((0 : ℤ) ≤ sampleState.playerLane ∧ sampleState.playerLane ≤ lanes - 1) ∧
    ((0 ≤ (keydown 200 MoveKey.right sampleState).playerLane ∧
        (keydown 200 MoveKey.right sampleState).playerLane ≤ lanes - 1) ∧
      (0 ≤ (runKeys [(200, MoveKey.right), (400, MoveKey.right)] sampleState).playerLane ∧
        (runKeys [(200, MoveKey.right), (400, MoveKey.right)] sampleState).playerLane ≤ lanes - 1) ∧
      (sampleState.playerLane = 0 →
        (keydown 200 MoveKey.left sampleState).playerLane = 0) ∧
      (sampleState.playerLane = lanes - 1 →
        (keydown 200 MoveKey.right sampleState).playerLane = lanes - 1)) :=
  ⟨⟨by norm_num [sampleState], by norm_num [sampleState, lanes]⟩,
    lane_clamped 200 MoveKey.right [(200, MoveKey.right), (400, MoveKey.right)] sampleState
      (by norm_num [sampleState]) (by norm_num [sampleState, lanes])⟩

/-- C7: a lane-change event is accepted only when at least 150ms elapsed
since the last accepted one — any event arriving earlier leaves the state
untouched — and for two move-right events 50ms apart where the first is
accepted, the first moves the lane right by one and the second is
ignored. -/
theorem debounce_150ms (now : ℚ) (s : GameState)
    (hacc : minMoveInterval ≤ now - s.lastMoveTime)
    (hlane : s.playerLane < lanes - 1) :
    (∀ (t : ℚ) (k : MoveKey) (u : GameState),
        t - u.lastMoveTime < minMoveInterval → keydown t k u = u) ∧
    (keydown now MoveKey.right s).playerLane = s.playerLane + 1 ∧
    keydown (now + 50) MoveKey.right (keydown now MoveKey.right s) =
      keydown now MoveKey.right s := by
  have hnot : ¬(now - s.lastMoveTime < minMoveInterval) := not_lt.mpr hacc
  have h1 : keydown now MoveKey.right s =
      { s with playerLane := min (lanes - 1) (s.playerLane + 1), lastMoveTime := now } := by
    simp only [keydown]
    rw [if_neg hnot]
  refine ⟨fun t k u h => by simp only [keydown]; rw [if_pos h], ?_, ?_⟩
  · rw [h1]
    dsimp only
    omega
  · rw [h1]
    simp only [keydown]
    rw [if_pos]
    dsimp only
    rw [show now + 50 - now = 50 by ring]
    norm_num [minMoveInterval]

/-- C7 witness: the theorem applied to the sample state with the first
event at t = 200ms. -/
theorem debounce_150ms_w :
    (minMoveInterval ≤ 200 - sampleState.lastMoveTime ∧
      sampleState.playerLane < lanes - 1) ∧
    ((∀ (t : ℚ) (k : MoveKey) (u : GameState),
        t - u.lastMoveTime < minMoveInterval → keydown t k u = u) ∧
      (keydown 200 MoveKey.right sampleState).playerLane = sampleState.playerLane + 1 ∧
      keydown (200 + 50) MoveKey.right (keydown 200 MoveKey.right sampleState) =
        keydown 200 MoveKey.right sampleState) :=
  ⟨⟨by norm_num [sampleState, minMoveInterval], by norm_num [sampleState, lanes]⟩,
    debounce_150ms 200 sampleState (by norm_num [sampleState, minMoveInterval])
      (by norm_num [sampleState, lanes])⟩

/-- C8: starting from a state with nonnegative speed (all reachable
states have speed at least 3), score never decreases across any sequence
of ticks, and a tick from any state with running false leaves score
unchanged. -/
theorem score_monotone_and_frozen (ticks : List (Layout × SpawnRand)) (s : GameState)
    (h : 0 ≤ s.speed) :
    s.score ≤ (runTicks ticks s).score ∧
    (∀ (lay : Layout) (r : SpawnRand) (t : GameState),
        t.running = false → (update lay r t).score = t.score) :=
  ⟨runTicks_score_mono ticks s h,
    fun lay r t ht => by rw [update_of_not_running lay r t ht]⟩

/-- C8 witness: the theorem applied to the sample state and a one-tick
sequence. -/
theorem score_monotone_and_frozen_w :
    (0 : ℚ) ≤ sampleState.speed ∧
    (sampleState.score ≤ (runTicks [(sampleLayout, sampleRand)] sampleState).score ∧
      (∀ (lay : Layout) (r : SpawnRand) (t : GameState),
          t.running = false → (update lay r t).score = t.score)) :=
  ⟨by norm_num [sampleState],
    score_monotone_and_frozen [(sampleLayout, sampleRand)] sampleState
      (by norm_num [sampleState])⟩

/-- C9: with no restart in between, each tick either leaves speed
unchanged or increases it by exactly 0.2, and speed never decreases
across any sequence of ticks. -/
theorem speed_nondecreasing (lay : Layout) (r : SpawnRand) (s : GameState)
    (ticks : List (Layout × SpawnRand)) :
    ((update lay r s).speed = s.speed ∨ (update lay r s).speed = s.speed + 0.2) ∧
    s.speed ≤ (runTicks ticks s).speed :=
  ⟨update_speed_cases lay r s, runTicks_speed_mono ticks s⟩

/-- C10: when running is false, update is a complete no-op: the whole
state — score, speed, enemy pool, spawnTimer, stripeOffset, player lane
and position, high score, persistence requests — is returned unchanged. -/
theorem update_noop_when_ended (lay : Layout) (r : SpawnRand) (s : GameState)
    (h : s.running = false) : update lay r s = s :=
  update_of_not_running lay r s h

/-- C10 witness: the theorem applied to a concrete ended state. -/
theorem update_noop_when_ended_w :
    sampleEnded.running = false ∧
    update sampleLayout sampleRand sampleEnded = sampleEnded :=
  ⟨rfl, update_noop_when_ended sampleLayout sampleRand sampleEnded rfl⟩

end BrickGame
